import Mathlib

/-!
# Verification of the city-data aggregation pipeline (`src/app.py`)

Shallow embedding of the aggregation logic of the City Fighting dashboard:

* `get_pois_from_overpass`  — the Overpass points-of-interest fetcher;
* `load_logement_data`'s table (modelled as a list of rows) and the in-place
  `INSEE_COM` normalization performed by `get_ville_data`;
* `get_ville_data` — resolution of a city name against the geo API response,
  density computation, weather-block try/except, housing join, record assembly.

External HTTP calls are modelled by passing their outcome as an explicit
`Except Unit _` argument (`Except.error ()` = the Python call raised: network
error, timeout, non-JSON body, `raise_for_status`, …).  A result of
`Except.error ()` for a whole function means an uncaught Python exception
propagates to the caller; `Except.ok` is normal return.

Machine reals of the source are modelled with `ℚ` (exact arithmetic); the
Python `float`-string parsing in the INSEE normalization is modelled for the
unsigned decimal literals that occur in the CSV column (`"75056"`,
`"75056.0"`, …), on which CPython's `float`/`int` round-trip is exact.
-/

namespace CityFighting

/-! ## Python number/string primitives used by the INSEE normalization

`str(int(float(x))).zfill(5)` from `get_ville_data` (line 151 of app.py).
-/

/-- The decimal digit character of `k` (for `k < 10`), as produced by `str`. -/
def digitChar : Nat → Char
  | 0 => '0' | 1 => '1' | 2 => '2' | 3 => '3' | 4 => '4'
  | 5 => '5' | 6 => '6' | 7 => '7' | 8 => '8' | _ => '9'

/-- Decimal digit emission for `str(n)`, structurally recursive on a fuel
argument (any fuel ≥ n computes the digits of `n`; `n` itself suffices). -/
def toDigitsAux : Nat → Nat → List Char
  | _, 0 => []
  | 0, _ + 1 => []
  | f + 1, n + 1 => toDigitsAux f ((n + 1) / 10) ++ [digitChar ((n + 1) % 10)]

/-- Decimal digits of `n`, most significant first (empty for 0). -/
def toDigits (n : Nat) : List Char := toDigitsAux n n

/-- Python `str` on a non-negative `int`. -/
def natToStr (n : Nat) : String :=
  if n = 0 then "0" else String.mk (toDigits n)

/-- Value of a digit string, most significant first (how `float`/`int` read it). -/
def digitsVal (l : List Char) : Nat :=
  l.foldl (fun n c => n * 10 + (c.toNat - 48)) 0

/-- Split a character list at the first `'.'`: integer part and, when a dot is
present, the remaining characters. -/
def splitDot : List Char → List Char × Option (List Char)
  | [] => ([], none)
  | c :: rest =>
      if c = '.' then ([], some rest)
      else
        let p := splitDot rest
        (c :: p.1, p.2)

/-- All characters are decimal digits. -/
def isDigitList (l : List Char) : Bool := l.all (fun c => c.isDigit)

/-- `int(float(x))` on an unsigned decimal literal: `none` models the
`ValueError` CPython raises on any other shape.  `int()` truncates the
fractional part. -/
def pyFloatIntList (l : List Char) : Option Nat :=
  match splitDot l with
  | (a, none) =>
      if !a.isEmpty && isDigitList a then some (digitsVal a) else none
  | (a, some b) =>
      if (!a.isEmpty || !b.isEmpty) && isDigitList a && isDigitList b then
        some (digitsVal a)
      else none

/-- `int(float(x))` on a string. -/
def pyFloatInt (s : String) : Option Nat := pyFloatIntList s.data

/-- Python `str.zfill(w)` for strings without a sign character. -/
def zfill (w : Nat) (s : String) : String :=
  String.mk (List.replicate (w - s.length) '0' ++ s.data)

/-- `str(int(float(x))).zfill(5)` — the INSEE-code normalization lambda of
`get_ville_data`; `none` models the exception path. -/
def normInsee (s : String) : Option String :=
  (pyFloatInt s).map fun n => zfill 5 (natToStr n)

/-! ## Basic lemmas on the digit machinery -/

theorem digitChar_isDigit (k : Nat) : (digitChar k).isDigit = true := by
  unfold digitChar
  split <;> decide

theorem digitChar_val (k : Nat) (h : k < 10) : (digitChar k).toNat - 48 = k := by
  interval_cases k <;> decide

theorem toDigitsAux_fuel :
    ∀ f f' n, n ≤ f → n ≤ f' → toDigitsAux f n = toDigitsAux f' n := by
  intro f
  induction f with
  | zero =>
    intro f' n h1 _
    match n, h1 with
    | 0, _ => cases f' <;> rfl
  | succ f ih =>
    intro f' n h1 h2
    match n with
    | 0 => cases f' <;> rfl
    | m + 1 =>
      match f', h2 with
      | g + 1, _ =>
        show toDigitsAux f ((m + 1) / 10) ++ _ = toDigitsAux g ((m + 1) / 10) ++ _
        have hd : (m + 1) / 10 < m + 1 := Nat.div_lt_self (Nat.succ_pos m) (by omega)
        rw [ih g ((m + 1) / 10) (by omega) (by omega)]

theorem toDigits_succ (m : Nat) :
    toDigits (m + 1) = toDigits ((m + 1) / 10) ++ [digitChar ((m + 1) % 10)] := by
  have hd : (m + 1) / 10 < m + 1 := Nat.div_lt_self (Nat.succ_pos m) (by omega)
  show toDigitsAux m ((m + 1) / 10) ++ _ = toDigitsAux ((m + 1) / 10) ((m + 1) / 10) ++ _
  rw [toDigitsAux_fuel m ((m + 1) / 10) ((m + 1) / 10) (by omega) (Nat.le_refl _)]

theorem digitsVal_core (l : List Char) :
    ∀ m : Nat, l.foldl (fun n c => n * 10 + (c.toNat - 48)) m =
      m * 10 ^ l.length + digitsVal l := by
  induction l with
  | nil => intro m; simp [digitsVal]
  | cons c l ih =>
    intro m
    have h1 : List.foldl (fun n c => n * 10 + (c.toNat - 48)) m (c :: l) =
        List.foldl (fun n c => n * 10 + (c.toNat - 48)) (m * 10 + (c.toNat - 48)) l := rfl
    have h2 : digitsVal (c :: l) =
        List.foldl (fun n c => n * 10 + (c.toNat - 48)) (0 * 10 + (c.toNat - 48)) l := rfl
    rw [h1, ih, h2, ih, List.length_cons]
    ring

theorem digitsVal_append (l1 l2 : List Char) :
    digitsVal (l1 ++ l2) = digitsVal l1 * 10 ^ l2.length + digitsVal l2 := by
  unfold digitsVal
  rw [List.foldl_append, digitsVal_core l2]
  rfl

theorem digitsVal_toDigits (n : Nat) : digitsVal (toDigits n) = n := by
  induction n using Nat.strong_induction_on with
  | _ n ih =>
    match n with
    | 0 => rfl
    | m + 1 =>
      have hd : (m + 1) / 10 < m + 1 := Nat.div_lt_self (Nat.succ_pos m) (by omega)
      rw [toDigits_succ, digitsVal_append, ih _ hd]
      have h10 : (m + 1) % 10 < 10 := Nat.mod_lt _ (by omega)
      have : digitsVal [digitChar ((m + 1) % 10)] = (m + 1) % 10 := by
        show 0 * 10 + ((digitChar ((m + 1) % 10)).toNat - 48) = (m + 1) % 10
        rw [digitChar_val _ h10]
        omega
      rw [this]
      simp only [List.length_cons, List.length_nil, pow_one]
      omega

theorem toDigits_all_digits (n : Nat) : isDigitList (toDigits n) = true := by
  induction n using Nat.strong_induction_on with
  | _ n ih =>
    match n with
    | 0 => rfl
    | m + 1 =>
      have hd : (m + 1) / 10 < m + 1 := Nat.div_lt_self (Nat.succ_pos m) (by omega)
      rw [toDigits_succ]
      have h1 := ih _ hd
      simp only [isDigitList, List.all_append, List.all_cons, List.all_nil] at h1 ⊢
      simp [h1, digitChar_isDigit]

theorem toDigits_ne_nil (n : Nat) (h : n ≠ 0) : toDigits n ≠ [] := by
  match n with
  | 0 => exact absurd rfl h
  | m + 1 =>
    rw [toDigits_succ]
    simp

theorem toDigits_length_le (k : Nat) :
    ∀ n, 0 < n → n < 10 ^ k → (toDigits n).length ≤ k := by
  induction k with
  | zero => intro n h1 h2; omega
  | succ k ih =>
    intro n h1 h2
    match n, h1 with
    | m + 1, _ =>
      rw [toDigits_succ, List.length_append]
      simp only [List.length_cons, List.length_nil]
      by_cases hsmall : (m + 1) / 10 = 0
      · rw [hsmall]
        show (toDigitsAux 0 0).length + 1 ≤ k + 1
        simp [toDigitsAux]
      · have hd : (m + 1) / 10 < 10 ^ k := by
          rw [Nat.div_lt_iff_lt_mul (by omega : 0 < 10)]
          calc m + 1 < 10 ^ (k + 1) := h2
            _ = 10 ^ k * 10 := by rw [Nat.pow_succ]
        have := ih ((m + 1) / 10) (Nat.pos_of_ne_zero hsmall) hd
        omega

/-! ## Lemmas on `splitDot`, `pyFloatInt` and `normInsee` -/

theorem no_dot_of_digits {l : List Char} (h : isDigitList l = true) : '.' ∉ l := by
  intro hm
  have h2 : ('.').isDigit = true := List.all_eq_true.mp h '.' hm
  exact absurd h2 (by decide)

theorem splitDot_no_dot : ∀ l : List Char, '.' ∉ l → splitDot l = (l, none) := by
  intro l
  induction l with
  | nil => intro _; rfl
  | cons c rest ih =>
    intro h
    have hc : c ≠ '.' := fun he => h (he ▸ List.mem_cons_self c rest)
    simp only [splitDot, if_neg hc]
    rw [ih (fun hm => h (List.mem_cons_of_mem c hm))]

theorem splitDot_append_dot : ∀ (a b : List Char), '.' ∉ a →
    splitDot (a ++ '.' :: b) = (a, some b) := by
  intro a
  induction a with
  | nil => intro b _; simp [splitDot]
  | cons c rest ih =>
    intro b h
    have hc : c ≠ '.' := fun he => h (he ▸ List.mem_cons_self c rest)
    simp only [List.cons_append, splitDot, if_neg hc]
    show (c :: (splitDot (rest ++ '.' :: b)).1, (splitDot (rest ++ '.' :: b)).2) = _
    rw [ih b (fun hm => h (List.mem_cons_of_mem c hm))]

theorem pyFloatIntList_digits {l : List Char} (hne : l ≠ []) (hd : isDigitList l = true) :
    pyFloatIntList l = some (digitsVal l) := by
  unfold pyFloatIntList
  rw [splitDot_no_dot l (no_dot_of_digits hd)]
  match l, hne with
  | c :: rest, _ =>
    simp only [List.isEmpty_cons, Bool.not_false, Bool.true_and]
    rw [hd]
    rfl

theorem pyFloatIntList_dot_zero (l : List Char) (hne : l ≠ [])
    (hd : isDigitList l = true) :
    pyFloatIntList (l ++ ['.', '0']) = pyFloatIntList l := by
  have h1 : pyFloatIntList (l ++ ['.', '0']) = some (digitsVal l) := by
    unfold pyFloatIntList
    have : l ++ ['.', '0'] = l ++ '.' :: ['0'] := rfl
    rw [this, splitDot_append_dot l ['0'] (no_dot_of_digits hd)]
    match l, hne with
    | c :: rest, _ =>
      simp only [List.isEmpty_cons, Bool.not_false, Bool.true_or, Bool.true_and]
      rw [hd]
      rfl
  rw [h1, pyFloatIntList_digits hne hd]

theorem digitsVal_replicate_zero (m : Nat) (l : List Char) :
    digitsVal (List.replicate m '0' ++ l) = digitsVal l := by
  rw [digitsVal_append]
  have hz : digitsVal (List.replicate m '0') = 0 := by
    induction m with
    | zero => rfl
    | succ k ih =>
      rw [List.replicate_succ]
      show List.foldl _ (0 * 10 + (('0').toNat - 48)) _ = 0
      have h0 : (0 * 10 + (('0').toNat - 48)) = 0 := by decide
      rw [h0]
      exact ih
  rw [hz]
  omega

theorem digitsVal_natToStr (n : Nat) : digitsVal (natToStr n).data = n := by
  unfold natToStr
  by_cases h : n = 0
  · subst h; decide
  · rw [if_neg h]
    exact digitsVal_toDigits n

theorem natToStr_digits (n : Nat) : isDigitList (natToStr n).data = true := by
  unfold natToStr
  by_cases h : n = 0
  · subst h; decide
  · rw [if_neg h]
    exact toDigits_all_digits n

theorem natToStr_ne_nil (n : Nat) : (natToStr n).data ≠ [] := by
  unfold natToStr
  by_cases h : n = 0
  · subst h; decide
  · rw [if_neg h]
    exact toDigits_ne_nil n h

theorem natToStr_length_le (n : Nat) (h : n < 100000) : (natToStr n).length ≤ 5 := by
  unfold natToStr
  by_cases h0 : n = 0
  · subst h0; decide
  · rw [if_neg h0, String.length_mk]
    exact toDigits_length_le 5 n (Nat.pos_of_ne_zero h0) h

theorem zfill_data (w : Nat) (s : String) :
    (zfill w s).data = List.replicate (w - s.length) '0' ++ s.data := rfl

theorem zfill_length (w : Nat) (s : String) :
    (zfill w s).length = (w - s.length) + s.length := by
  show (zfill w s).data.length = _
  rw [zfill_data, List.length_append, List.length_replicate]
  rfl

theorem zfill_digits (w : Nat) (s : String) (h : isDigitList s.data = true) :
    isDigitList (zfill w s).data = true := by
  rw [zfill_data]
  simp only [isDigitList, List.all_append, List.all_replicate]
  simp only [isDigitList] at h
  rw [h]
  simp

theorem zfill_ne_nil (w : Nat) (s : String) (h : s.data ≠ []) :
    (zfill w s).data ≠ [] := by
  rw [zfill_data]
  intro hcontra
  exact h (List.append_eq_nil.mp hcontra).2

theorem digitsVal_zfill (w : Nat) (s : String) :
    digitsVal (zfill w s).data = digitsVal s.data := by
  rw [zfill_data, digitsVal_replicate_zero]

/-- The key C3 fact at string level: normalizing a float-like form equals
normalizing the clean integer form. -/
theorem normInsee_dot_zero (s : String) (hne : s.data ≠ [])
    (hd : isDigitList s.data = true) :
    normInsee (s ++ ".0") = normInsee s := by
  unfold normInsee pyFloatInt
  have hdata : (s ++ ".0").data = s.data ++ ['.', '0'] := by
    rw [String.data_append]
  rw [hdata, pyFloatIntList_dot_zero s.data hne hd]

/-- The normalized form of an INSEE code re-normalizes to itself (idempotence
of the column rewrite in `get_ville_data`). -/
theorem normInsee_normalized (n : Nat) :
    normInsee (zfill 5 (natToStr n)) = some (zfill 5 (natToStr n)) := by
  unfold normInsee pyFloatInt
  rw [pyFloatIntList_digits (zfill_ne_nil 5 _ (natToStr_ne_nil n))
        (zfill_digits 5 _ (natToStr_digits n))]
  rw [digitsVal_zfill, digitsVal_natToStr]
  rfl

theorem normInsee_digits (s : String) (hne : s.data ≠ [])
    (hd : isDigitList s.data = true) :
    normInsee s = some (zfill 5 (natToStr (digitsVal s.data))) := by
  unfold normInsee pyFloatInt
  rw [pyFloatIntList_digits hne hd]
  rfl

/-! ## Points of interest: `get_pois_from_overpass` (app.py lines 11–53)

The HTTP call `requests.get(overpass_url, ...)` together with
`response.json()` is modelled as an `Except Unit OverpassResponse` input:
`Except.error ()` when the call raises (network error, timeout, non-JSON
body), `Except.ok` with the parsed JSON otherwise.  Note the Python body has
no `try`/`except`: any exception propagates to the caller. -/

/-- The OSM tags of an element that the fetcher reads.  `none` = the key is
absent from the JSON `tags` object; `some ""` = present but empty. -/
structure Tags where
  name : Option String
  amenity : Option String
  tourism : Option String
  leisure : Option String
  railway : Option String
  deriving DecidableEq, Repr

/-- An element of the Overpass `elements` array.  `tags = none` models an
element whose JSON has no `tags` key (then `element["tags"]` raises
`KeyError`); likewise a missing `lat`/`lon` raises at `element["lat"]`. -/
structure OsmElement where
  tags : Option Tags
  lat : Option ℚ
  lon : Option ℚ
  deriving DecidableEq, Repr

/-- Parsed JSON body of the Overpass response; `elements = none` models a
JSON object without the `elements` key (`data.get("elements", [])`). -/
structure OverpassResponse where
  elements : Option (List OsmElement)
  deriving DecidableEq, Repr

/-- One entry of the `pois` list built by the fetcher.  `type` is
`Option String` because `translations.get(type_poi)` has no default and
yields Python `None` on a raw value outside the table. -/
structure Poi where
  nom : String
  type : Option String
  lat : ℚ
  lon : ℚ
  deriving DecidableEq, Repr

/-- Python's `a or b or …` chain over tag lookups: the first value that is
truthy (present and non-empty) wins. -/
def firstTruthy : List (Option String) → Option String
  | [] => none
  | none :: rest => firstTruthy rest
  | some s :: rest => if s = "" then firstTruthy rest else some s

/-- The fixed `translations` dict; `.get` with no default (`none` = Python
`None` for a key outside the table). -/
def translations (s : String) : Option String :=
  if s = "school" then some "école"
  else if s = "hospital" then some "hôpitaux"
  else if s = "park" then some "parc"
  else if s = "station" then some "gare"
  else if s = "Autre" then some "Autre"
  else none

/-- Category of an element's tags: first truthy tag in the order
amenity → tourism → leisure → railway (default `"Autre"`), then looked up in
`translations` with no default. -/
def poiCategory (t : Tags) : Option String :=
  translations ((firstTruthy [t.amenity, t.tourism, t.leisure, t.railway]).getD "Autre")

/-- Processing of one element of the loop body (lines 27–51):
`element.get("tags", {}).get("name", "Sans nom")`, then `element["tags"]`
(raises when absent), category translation, and `element["lat"]`,
`element["lon"]` (raise when absent). -/
def elemPoi (e : OsmElement) : Except Unit Poi :=
  let nom := match e.tags with
    | some t => t.name.getD "Sans nom"
    | none => "Sans nom"
  match e.tags with
  | none => Except.error ()
  | some t =>
    match e.lat, e.lon with
    | some la, some lo => Except.ok { nom := nom, type := poiCategory t, lat := la, lon := lo }
    | _, _ => Except.error ()

/-- `get_pois_from_overpass`: the whole fetcher given the outcome of its HTTP
call.  The `for` loop with `append` is `mapM`: the first raising element
aborts the function, discarding the partial list. -/
def get_pois_from_overpass (resp : Except Unit OverpassResponse) :
    Except Unit (List Poi) :=
  match resp with
  | Except.error e => Except.error e
  | Except.ok data => (data.elements.getD []).mapM elemPoi

/-! ## Geo resolution (app.py lines 103–117) -/

/-- `centre` of a commune as returned by geo.api.gouv.fr:
`coordinates[0]` is the longitude, `coordinates[1]` the latitude. -/
structure Centre where
  lon : ℚ
  lat : ℚ
  deriving DecidableEq, Repr

/-- A field of a JSON object that may be absent, present with `null`, or
carry a value.  `obj.get(key)` yields a falsy `None` for both `absent` and
`null`; the bracket access `obj[key]` raises `KeyError` exactly for
`absent`. -/
inductive JsonOpt (α : Type) where
  | absent : JsonOpt α
  | null : JsonOpt α
  | val : α → JsonOpt α
  deriving DecidableEq, Repr

/-- One commune object of the geo API response.  `population` is read with
`c.get('population', 0)` (line 110) and `commune['population']` (line 158).
`surface` is read with `commune.get('surface')` at line 115 — falsy for an
absent key, a `null` value and `0` — and with the bracket access
`commune['surface']` at line 159, which raises `KeyError` when the key is
absent. -/
structure Commune where
  nom : String
  code : String
  population : Option Nat
  surface : JsonOpt ℚ
  centre : Centre
  deriving DecidableEq, Repr

/-- Lower-casing of one character, as Python's `str.lower` acts on the
ASCII and Latin-1 uppercase letters occurring in French commune names. -/
def lowerChar (c : Char) : Char :=
  let n := c.toNat
  if 65 ≤ n ∧ n ≤ 90 then Char.ofNat (n + 32)
  else if 192 ≤ n ∧ n ≤ 222 ∧ n ≠ 215 then Char.ofNat (n + 32)
  else c

/-- Python `str.lower()` on the alphabet of commune names. -/
def pyLower (s : String) : String := String.mk (s.data.map lowerChar)

/-- The generator predicate of line 110:
`c['nom'].lower() == ville.lower() and c.get('population', 0) >= 20000`. -/
def qualifies (ville : String) (c : Commune) : Bool :=
  (pyLower c.nom == pyLower ville) && decide (20000 ≤ c.population.getD 0)

/-- The resolution step of `get_ville_data` (lines 107–112): `None` when the
response list is empty, else the first qualifying candidate via `next(...)`. -/
def resolveCommune (ville : String) (response : List Commune) : Option Commune :=
  if response = [] then none else response.find? (qualifies ville)

/-! ## Weather (app.py lines 119–147) -/

/-- `current_weather` object of the open-meteo response. -/
structure CurrentWeather where
  temperature : ℚ
  windspeed : ℚ
  deriving DecidableEq, Repr

/-- `daily` object: four parallel arrays aligned by index. -/
structure DailyData where
  time : List String
  temperature_2m_min : List ℚ
  temperature_2m_max : List ℚ
  precipitation_sum : List ℚ
  deriving DecidableEq, Repr

/-- Parsed open-meteo JSON body.  Any missing key, HTTP error or network
failure is folded into the `Except.error` case of the fetch outcome, because
the whole block sits in a bare `try`/`except`. -/
structure MeteoData where
  current_weather : CurrentWeather
  daily : DailyData
  deriving DecidableEq, Repr

/-- One entry of the `daily_forecast` list comprehension. -/
structure ForecastDay where
  date : String
  temp_min : ℚ
  temp_max : ℚ
  precip : ℚ
  deriving DecidableEq, Repr

/-- Python `zip` over four lists: truncates to the shortest. -/
def zip4 : List α → List β → List γ → List δ → List (α × β × γ × δ)
  | a :: as, b :: bs, c :: cs, d :: ds => (a, b, c, d) :: zip4 as bs cs ds
  | _, _, _, _ => []

/-- The `daily_forecast` comprehension (lines 130–143). -/
def buildForecast (d : DailyData) : List ForecastDay :=
  (zip4 d.time d.temperature_2m_min d.temperature_2m_max d.precipitation_sum).map
    (fun x => { date := x.1, temp_min := x.2.1, temp_max := x.2.2.1, precip := x.2.2.2 })

/-- The `temp` variable: a float on success, the string `"N/A"` in the
`except` branch. -/
inductive TempVal where
  | val : ℚ → TempVal
  | na : TempVal
  deriving DecidableEq, Repr

/-- The `meteo` sub-dict of the returned record. -/
structure Meteo where
  temp : TempVal
  statut : String
  previsions : List ForecastDay
  deriving DecidableEq, Repr

/-! ## Housing table and join (app.py lines 77–99 and 149–154) -/

/-- One row of the concatenated `logement_data` table: the `INSEE_COM` cell
(`none` = NaN/null, for which the lambda returns Python `None`), the `ANNEE`
vintage tag added by `load_logement_data`, and the remaining numeric columns. -/
structure LRow where
  insee : Option String
  annee : Nat
  data : List (String × ℚ)
  deriving DecidableEq, Repr

/-- The per-cell `apply` lambda of line 151:
`str(int(float(x))).zfill(5) if pd.notnull(x) else None`.  A cell on which
`float` raises makes the whole `apply` — hence `get_ville_data` — raise. -/
def normCell : Option String → Except Unit (Option String)
  | none => Except.ok none
  | some s =>
      match normInsee s with
      | some t => Except.ok (some t)
      | none => Except.error ()

/-- The column rewrite `logement_data['INSEE_COM'] = ...apply(...)`: the
lambda is applied cell by cell; the first raising cell aborts the whole
`apply` (and the column is then never reassigned, but the enclosing
`get_ville_data` call dies anyway). -/
def normTable : List LRow → Except Unit (List LRow)
  | [] => Except.ok []
  | r :: rest =>
      match normCell r.insee with
      | Except.error e => Except.error e
      | Except.ok c =>
          match normTable rest with
          | Except.error e => Except.error e
          | Except.ok rs => Except.ok ({ r with insee := c } :: rs)

/-- `logement['ANNEE'].max()` on a non-empty filtered frame. -/
def maxAnnee : List LRow → Nat
  | [] => 0
  | r :: rs => rs.foldl (fun a x => max a x.annee) r.annee

/-- The housing block of `get_ville_data` (lines 149–154): skip when the
table is empty, else normalize the `INSEE_COM` column in place, filter rows
matching the city code, and take the first row of the max-year slice.
Returns the housing sub-record (`none` = the empty dict `{}`) and the table
as left in the module-level variable after the call. -/
def computeLogement (table : List LRow) (code : String) :
    Except Unit (Option LRow × List LRow) :=
  if table = [] then Except.ok (none, table)
  else
    match normTable table with
    | Except.error e => Except.error e
    | Except.ok t =>
      let matching := t.filter fun r => r.insee == some code
      if matching = [] then Except.ok (none, t)
      else
        let recents := matching.filter fun r => r.annee == maxAnnee matching
        Except.ok (recents.head?, t)

/-! ## The aggregated record and `get_ville_data` (app.py lines 103–170) -/

/-- The `densite_hab_km2` field: a rounded float, or the string
`"Données indisponibles"`. -/
inductive Dens where
  | val : ℚ → Dens
  | indisponible : Dens
  deriving DecidableEq, Repr

/-- Floor of a rational (`x.den` is positive, so flooring integer division of
the numerator by the denominator is the mathematical floor). -/
def ratFloor (x : ℚ) : ℤ := Int.fdiv x.num x.den

/-- Round half to even to an integer, as Python's `round` ties. -/
def roundHalfEven (x : ℚ) : ℤ :=
  let n := ratFloor x
  let f := x - n
  if f < 1 / 2 then n
  else if 1 / 2 < f then n + 1
  else if n % 2 = 0 then n else n + 1

/-- Python `round(x, 2)` on an exact value. -/
def round2 (q : ℚ) : ℚ := (roundHalfEven (q * 100) : ℚ) / 100

/-- Line 115: `round(commune['population'] / commune['surface'], 2) if
commune.get('surface') else "Données indisponibles"` — `commune.get` yields
`None` for an absent key and for a `null` value, and `None` and a float
`0.0` are falsy; anything else computes the rounded quotient. -/
def densiteOf (pop : Nat) (surface : JsonOpt ℚ) : Dens :=
  match surface with
  | JsonOpt.absent => Dens.indisponible
  | JsonOpt.null => Dens.indisponible
  | JsonOpt.val s =>
      if s = 0 then Dens.indisponible
      else Dens.val (round2 ((pop : ℚ) / s))

/-- The bracket access `commune['surface']` in the returned dict (line 159):
`KeyError` when the key is absent; otherwise the value (`None` for `null`). -/
def surfaceItem : JsonOpt ℚ → Except Unit (Option ℚ)
  | JsonOpt.absent => Except.error ()
  | JsonOpt.null => Except.ok none
  | JsonOpt.val s => Except.ok (some s)

/-- The `try`/`except` weather block (lines 119–147): on success the current
temperature, a wind summary string and the zipped forecast; the bare
`except:` catches every failure (HTTP error, timeout, missing key) and sets
the three sentinels. -/
def meteoOf (meteo : Except Unit MeteoData) : Meteo :=
  match meteo with
  | Except.ok m =>
      { temp := TempVal.val m.current_weather.temperature,
        statut := "Vent: " ++ toString m.current_weather.windspeed ++ " km/h",
        previsions := buildForecast m.daily }
  | Except.error _ =>
      { temp := TempVal.na, statut := "Météo non disponible", previsions := [] }

/-- The dict returned by `get_ville_data` (lines 156–170). -/
structure VilleData where
  nom : String
  population : Nat
  superficie_km2 : Option ℚ
  densite_hab_km2 : Dens
  latitude : ℚ
  longitude : ℚ
  meteo : Meteo
  logement : Option LRow
  pois : List Poi
  deriving DecidableEq, Repr

/-- `get_ville_data(ville)`: the whole aggregation, given the outcomes of its
three external calls and the current housing table.  The result pairs the
returned record (`none` = the Python `return None`, i.e. NotFound) with the
housing table as it stands after the call (line 151 reassigns the shared
column); `Except.error` = an uncaught exception escapes the function.

`commune['population']` cannot raise once `next` selected a candidate, since
`c.get('population', 0) >= 20000` forces the key to be present; it is read
right after selection.  The values of the returned dict are evaluated in key
order, so the bracket access `commune['surface']` of line 159 runs after the
housing block and before the POI fetch (the value of the last key,
`"pois"`), and raises `KeyError` there when the surface key is absent. -/
def get_ville_data (ville : String) (geo : Except Unit (List Commune))
    (meteo : Except Unit MeteoData) (pois : Except Unit OverpassResponse)
    (table : List LRow) : Except Unit (Option VilleData × List LRow) :=
  match geo with
  | Except.error e => Except.error e
  | Except.ok response =>
    if response = [] then Except.ok (none, table)
    else
      match response.find? (qualifies ville) with
      | none => Except.ok (none, table)
      | some commune =>
        match commune.population with
        | none => Except.error ()
        | some pop =>
          match computeLogement table commune.code with
          | Except.error e => Except.error e
          | Except.ok (logement_info, t2) =>
            match surfaceItem commune.surface with
            | Except.error e => Except.error e
            | Except.ok surf =>
              match get_pois_from_overpass pois with
              | Except.error e => Except.error e
              | Except.ok plist =>
                Except.ok (some
                  { nom := commune.nom, population := pop,
                    superficie_km2 := surf,
                    densite_hab_km2 := densiteOf pop commune.surface,
                    latitude := commune.centre.lat, longitude := commune.centre.lon,
                    meteo := meteoOf meteo, logement := logement_info,
                    pois := plist }, t2)

/-! ## Generic list lemmas -/

theorem find?_first {α : Type} {p : α → Bool} :
    ∀ {l : List α} {a : α}, l.find? p = some a →
      p a = true ∧ ∃ pre post, l = pre ++ a :: post ∧ ∀ b ∈ pre, p b = false := by
  intro l
  induction l with
  | nil => intro a h; simp [List.find?] at h
  | cons c rest ih =>
    intro a h
    by_cases hc : p c = true
    · rw [List.find?_cons_of_pos _ hc] at h
      have hca : c = a := by injection h
      subst hca
      exact ⟨hc, [], rest, rfl, by simp⟩
    · rw [List.find?_cons_of_neg _ hc] at h
      obtain ⟨hp, pre, post, heq, hpre⟩ := ih h
      refine ⟨hp, c :: pre, post, by rw [heq]; rfl, ?_⟩
      intro b hb
      rcases List.mem_cons.mp hb with hbc | hbp
      · subst hbc; exact Bool.eq_false_iff.mpr hc
      · exact hpre b hbp

theorem filter_head_unique {α : Type} {p : α → Bool} :
    ∀ {l : List α} {a : α}, a ∈ l → p a = true →
      (∀ x ∈ l, p x = true → x = a) → (l.filter p).head? = some a := by
  intro l
  induction l with
  | nil => intro a h; simp at h
  | cons c rest ih =>
    intro a hmem hpa huniq
    by_cases hc : p c = true
    · have hca : c = a := huniq c (List.mem_cons_self c rest) hc
      subst hca
      rw [List.filter_cons_of_pos hc]
      rfl
    · rw [List.filter_cons_of_neg (by simpa using hc)]
      have hmem2 : a ∈ rest := by
        rcases List.mem_cons.mp hmem with h1 | h2
        · subst h1; exact absurd hpa hc
        · exact h2
      exact ih hmem2 hpa (fun x hx hpx => huniq x (List.mem_cons_of_mem c hx) hpx)

theorem foldl_max_le (l : List LRow) :
    ∀ init : Nat, init ≤ l.foldl (fun a x => max a x.annee) init ∧
      ∀ r ∈ l, r.annee ≤ l.foldl (fun a x => max a x.annee) init := by
  induction l with
  | nil => intro init; exact ⟨Nat.le_refl _, by simp⟩
  | cons c rest ih =>
    intro init
    have h1 := ih (max init c.annee)
    constructor
    · exact le_trans (Nat.le_max_left _ _) h1.1
    · intro r hr
      rcases List.mem_cons.mp hr with h2 | h2
      · subst h2; exact le_trans (Nat.le_max_right _ _) h1.1
      · exact h1.2 r h2

theorem foldl_max_attained (l : List LRow) :
    ∀ init : Nat, l.foldl (fun a x => max a x.annee) init = init ∨
      ∃ r ∈ l, l.foldl (fun a x => max a x.annee) init = r.annee := by
  induction l with
  | nil => intro init; exact Or.inl rfl
  | cons c rest ih =>
    intro init
    have hstep : (c :: rest).foldl (fun a x => max a x.annee) init =
        rest.foldl (fun a x => max a x.annee) (max init c.annee) := rfl
    rcases ih (max init c.annee) with h | ⟨r, hr, he⟩
    · by_cases hca : c.annee ≤ init
      · rw [hstep, h, Nat.max_eq_left hca]
        exact Or.inl rfl
      · refine Or.inr ⟨c, List.mem_cons_self c rest, ?_⟩
        rw [hstep, h, Nat.max_eq_right (Nat.le_of_not_le hca)]
    · refine Or.inr ⟨r, List.mem_cons_of_mem c hr, ?_⟩
      rw [hstep]
      exact he

theorem maxAnnee_le {l : List LRow} : ∀ r ∈ l, r.annee ≤ maxAnnee l := by
  match l with
  | [] => simp
  | c :: rest =>
    intro r hr
    show r.annee ≤ rest.foldl (fun a x => max a x.annee) c.annee
    rcases List.mem_cons.mp hr with h | h
    · subst h; exact (foldl_max_le rest r.annee).1
    · exact (foldl_max_le rest c.annee).2 r h

theorem maxAnnee_mem {l : List LRow} (h : l ≠ []) : ∃ r ∈ l, r.annee = maxAnnee l := by
  match l, h with
  | c :: rest, _ =>
    rcases foldl_max_attained rest c.annee with h1 | ⟨r, hr, he⟩
    · exact ⟨c, List.mem_cons_self c rest, h1.symm⟩
    · exact ⟨r, List.mem_cons_of_mem c hr, he.symm⟩

theorem zip4_length_eq {α β γ δ : Type} :
    ∀ (a : List α) (b : List β) (c : List γ) (d : List δ),
      b.length = a.length → c.length = a.length → d.length = a.length →
      (zip4 a b c d).length = a.length := by
  intro a
  induction a with
  | nil => intro b c d _ _ _; rfl
  | cons xa ta ih =>
    intro b c d hb hc hd
    match b, c, d with
    | xb :: tb, xc :: tc, xd :: td =>
      show (zip4 ta tb tc td).length + 1 = ta.length + 1
      rw [ih tb tc td (by simpa using hb) (by simpa using hc) (by simpa using hd)]

theorem zip4_elem {α β γ δ : Type} :
    ∀ (i : Nat) (la : List α) (lb : List β) (lc : List γ) (ld : List δ)
      (xa : α) (xb : β) (xc : γ) (xd : δ),
      la[i]? = some xa → lb[i]? = some xb → lc[i]? = some xc →
      ld[i]? = some xd → (zip4 la lb lc ld)[i]? = some (xa, xb, xc, xd) := by
  intro i
  induction i with
  | zero =>
    intro la lb lc ld xa xb xc xd ha hb hc hd
    match la, lb, lc, ld with
    | ya :: ta, yb :: tb, yc :: tc, yd :: td =>
      simp only [List.getElem?_cons_zero] at ha hb hc hd
      injection ha with ha; injection hb with hb; injection hc with hc; injection hd with hd
      subst ha; subst hb; subst hc; subst hd
      have hz : zip4 (ya :: ta) (yb :: tb) (yc :: tc) (yd :: td) =
          (ya, yb, yc, yd) :: zip4 ta tb tc td := rfl
      rw [hz, List.getElem?_cons_zero]
  | succ j ih =>
    intro la lb lc ld xa xb xc xd ha hb hc hd
    match la, lb, lc, ld with
    | ya :: ta, yb :: tb, yc :: tc, yd :: td =>
      simp only [List.getElem?_cons_succ] at ha hb hc hd
      have hz : zip4 (ya :: ta) (yb :: tb) (yc :: tc) (yd :: td) =
          (ya, yb, yc, yd) :: zip4 ta tb tc td := rfl
      rw [hz, List.getElem?_cons_succ]
      exact ih ta tb tc td xa xb xc xd ha hb hc hd

/-! ## Lemmas about the resolution predicate -/

theorem qualifies_iff (ville : String) (c : Commune) :
    qualifies ville c = true ↔
      pyLower c.nom = pyLower ville ∧ 20000 ≤ c.population.getD 0 := by
  unfold qualifies
  rw [Bool.and_eq_true, beq_iff_eq, decide_eq_true_iff]

theorem resolveCommune_some {ville : String} {response : List Commune} {c : Commune}
    (h : resolveCommune ville response = some c) :
    response ≠ [] ∧ response.find? (qualifies ville) = some c := by
  unfold resolveCommune at h
  by_cases hne : response = []
  · rw [if_pos hne] at h; exact absurd h (by simp)
  · rw [if_neg hne] at h; exact ⟨hne, h⟩

theorem qualifies_population {ville : String} {c : Commune}
    (h : qualifies ville c = true) : ∃ p, c.population = some p ∧ 20000 ≤ p := by
  have h2 := (qualifies_iff ville c).mp h
  match hp : c.population with
  | some p =>
    rw [hp] at h2
    exact ⟨p, rfl, h2.2⟩
  | none =>
    rw [hp] at h2
    exact absurd h2.2 (by simp)

/-! ## Shared lemmas about `get_ville_data`, `normTable`, `computeLogement` -/

theorem resolve_none_ok (ville : String) (response : List Commune)
    (meteo : Except Unit MeteoData) (pois : Except Unit OverpassResponse)
    (table : List LRow) (hnone : resolveCommune ville response = none) :
    get_ville_data ville (Except.ok response) meteo pois table =
      Except.ok (none, table) := by
  unfold resolveCommune at hnone
  by_cases hne : response = []
  · simp only [get_ville_data, if_pos hne]
  · rw [if_neg hne] at hnone
    simp only [get_ville_data, if_neg hne, hnone]

theorem get_ville_data_ok (ville : String) (response : List Commune) (c : Commune)
    (meteo : Except Unit MeteoData) (pois : Except Unit OverpassResponse)
    (table : List LRow) (plist : List Poi) (linfo : Option LRow) (t2 : List LRow)
    (p : Nat) (surf : Option ℚ)
    (hres : resolveCommune ville response = some c)
    (hp : c.population = some p)
    (hlog : computeLogement table c.code = Except.ok (linfo, t2))
    (hsurf : surfaceItem c.surface = Except.ok surf)
    (hpois : get_pois_from_overpass pois = Except.ok plist) :
    get_ville_data ville (Except.ok response) meteo pois table =
      Except.ok (some
        { nom := c.nom, population := p, superficie_km2 := surf,
          densite_hab_km2 := densiteOf p c.surface,
          latitude := c.centre.lat, longitude := c.centre.lon,
          meteo := meteoOf meteo, logement := linfo, pois := plist }, t2) := by
  obtain ⟨hne, hfind⟩ := resolveCommune_some hres
  simp only [get_ville_data, if_neg hne, hfind, hp, hlog, hsurf, hpois]

/-- When the surface key is absent, the bracket access of line 159 raises
`KeyError` out of `get_ville_data` — no record is assembled. -/
theorem get_ville_data_surface_raise (ville : String) (response : List Commune)
    (c : Commune) (meteo : Except Unit MeteoData)
    (pois : Except Unit OverpassResponse) (table : List LRow)
    (linfo : Option LRow) (t2 : List LRow) (p : Nat)
    (hres : resolveCommune ville response = some c)
    (hp : c.population = some p)
    (hlog : computeLogement table c.code = Except.ok (linfo, t2))
    (habs : c.surface = JsonOpt.absent) :
    get_ville_data ville (Except.ok response) meteo pois table =
      Except.error () := by
  obtain ⟨hne, hfind⟩ := resolveCommune_some hres
  simp only [get_ville_data, if_neg hne, hfind, hp, hlog, habs, surfaceItem]

theorem normCell_shape {o c : Option String} (h : normCell o = Except.ok c) :
    c = none ∨ ∃ n : Nat, c = some (zfill 5 (natToStr n)) := by
  match o with
  | none =>
    have h2 : Except.ok (none : Option String) = Except.ok c := h
    injection h2 with h2
    exact Or.inl h2.symm
  | some s =>
    have h2 : (match normInsee s with
        | some t => Except.ok (some t)
        | none => (Except.error () : Except Unit (Option String))) = Except.ok c := h
    match hn : normInsee s with
    | some t =>
      rw [hn] at h2
      injection h2 with h2
      have h3 : (pyFloatInt s).map (fun n => zfill 5 (natToStr n)) = some t := hn
      match hpf : pyFloatInt s with
      | some n =>
        rw [hpf] at h3
        injection h3 with h3
        exact Or.inr ⟨n, h2 ▸ h3 ▸ rfl⟩
      | none => rw [hpf] at h3; exact absurd h3 (by simp)
    | none => rw [hn] at h2; exact absurd h2 (by simp)

theorem normCell_idem {o c : Option String} (h : normCell o = Except.ok c) :
    normCell c = Except.ok c := by
  rcases normCell_shape h with h1 | ⟨n, h1⟩
  · subst h1; rfl
  · subst h1
    show (match normInsee (zfill 5 (natToStr n)) with
      | some t => Except.ok (some t)
      | none => (Except.error () : Except Unit (Option String))) = _
    rw [normInsee_normalized]

theorem normTable_idem : ∀ {t t2 : List LRow}, normTable t = Except.ok t2 →
    normTable t2 = Except.ok t2 := by
  intro t
  induction t with
  | nil =>
    intro t2 h
    unfold normTable at h
    injection h with h
    subst h
    rfl
  | cons r rest ih =>
    intro t2 h
    unfold normTable at h
    match hc : normCell r.insee with
    | Except.error e => rw [hc] at h; exact absurd h (by simp)
    | Except.ok c =>
      rw [hc] at h
      match hrest : normTable rest with
      | Except.error e => rw [hrest] at h; exact absurd h (by simp)
      | Except.ok rs =>
        rw [hrest] at h
        injection h with h
        subst h
        show normTable ({ r with insee := c } :: rs) = _
        unfold normTable
        show (match normCell c with | Except.error e => _ | Except.ok c2 => _) = _
        rw [normCell_idem hc, ih hrest]

/-- The second call on an already-normalized table reads the table it was
given and leaves it as is. -/
theorem computeLogement_stable {t2 : List LRow} (hid : normTable t2 = Except.ok t2) :
    ∀ code x t3, computeLogement t2 code = Except.ok (x, t3) → t3 = t2 := by
  intro code x t3 h
  by_cases hne : t2 = []
  · simp only [computeLogement, if_pos hne] at h
    injection h with h
    exact (congrArg Prod.snd h).symm
  · simp only [computeLogement, if_neg hne, hid] at h
    by_cases hm : (t2.filter fun r => r.insee == some code) = []
    · rw [if_pos hm] at h
      injection h with h
      exact (congrArg Prod.snd h).symm
    · rw [if_neg hm] at h
      injection h with h
      exact (congrArg Prod.snd h).symm

/-! ## Claim C1 — POI fetcher failure policy (corrected)

The claim says `get_pois_from_overpass` never raises and returns `[]` on any
network error or malformed response.  The source has no `try`/`except`
around the HTTP call or the parsing loop, so those exceptions propagate. -/

/-- C1 counterexample: when the HTTP call (or `response.json()`) raises, the
exception propagates out of `get_pois_from_overpass` instead of the
empty-list result the claim promises. -/
theorem c1_poi_fetch_counterexample :
    get_pois_from_overpass (Except.error ()) = Except.error () ∧
    (Except.error () : Except Unit (List Poi)) ≠ Except.ok [] :=
  ⟨rfl, fun h => Except.noConfusion h⟩

/-- C1 (amended): when the HTTP call and JSON parsing succeed,
`get_pois_from_overpass` returns the empty POI list for a response without
an `elements` key (via `data.get("elements", [])`) and for an empty
`elements` array; but a raising HTTP call propagates its exception to the
caller, as does an element lacking the `tags`, `lat` or `lon` key. -/
theorem c1_poi_fetch_corrected (r : OverpassResponse) (e : Unit)
    (badElem : OsmElement) (hnone : r.elements = none)
    (hbad : badElem.tags = none) :
    get_pois_from_overpass (Except.ok r) = Except.ok [] ∧
    get_pois_from_overpass (Except.ok { elements := some [] }) = Except.ok [] ∧
    get_pois_from_overpass (Except.error e) = Except.error e ∧
    get_pois_from_overpass (Except.ok { elements := some [badElem] }) =
      Except.error () := by
  refine ⟨?_, rfl, rfl, ?_⟩
  · show (r.elements.getD []).mapM elemPoi = Except.ok []
    rw [hnone]
    rfl
  · show ([badElem].mapM elemPoi : Except Unit (List Poi)) = Except.error ()
    have he : elemPoi badElem = Except.error () := by
      unfold elemPoi
      rw [hbad]
    simp [List.mapM, List.mapM.loop, he]

/-- C1 witness: the amended theorem at a concrete response and element. -/
theorem c1_poi_fetch_witness :
    get_pois_from_overpass (Except.ok { elements := none }) = Except.ok [] ∧
    get_pois_from_overpass (Except.ok { elements := some [] }) = Except.ok [] ∧
    get_pois_from_overpass (Except.error ()) = Except.error () ∧
    get_pois_from_overpass (Except.ok
      { elements := some [{ tags := none, lat := some 1, lon := some 2 }] }) =
      Except.error () :=
  c1_poi_fetch_corrected { elements := none } ()
    { tags := none, lat := some 1, lon := some 2 } rfl rfl

/-! ## Claim C6 — POI category translation (corrected)

The priority order amenity → tourism → leisure → railway is as claimed, but
`translations.get(type_poi)` is called **without** a default: a non-empty
tag value outside the table (e.g. `tourism=museum`) yields Python `None`,
not `"Autre"`/"other".  The `"Autre"` category only arises when all four
tags are absent or empty. -/

/-- A node carrying only the tag `tourism=museum`, as in the spec's own
scenario. -/
def museumTags : Tags :=
  { name := none, amenity := none, tourism := some "museum",
    leisure := none, railway := none }

/-- The Overpass element for the museum-only node. -/
def museumElem : OsmElement :=
  { tags := some museumTags, lat := some 1, lon := some 2 }

/-- C6 counterexample: a node tagged only `tourism=museum` gets category
`None` (the display code later skips `poi["type"] is None`), not the
claimed "other" category. -/
theorem c6_poi_category_counterexample :
    get_pois_from_overpass (Except.ok { elements := some [museumElem] }) =
      Except.ok [{ nom := "Sans nom", type := none, lat := 1, lon := 2 }] ∧
    (none : Option String) ≠ some "Autre" :=
  ⟨rfl, fun h => Option.noConfusion h⟩

theorem firstTruthy_falsy (o : Option String) (rest : List (Option String))
    (h : o = none ∨ o = some "") : firstTruthy (o :: rest) = firstTruthy rest := by
  rcases h with h | h
  · subst h; rfl
  · subst h; simp [firstTruthy]

theorem firstTruthy_truthy (a : String) (rest : List (Option String))
    (h : a ≠ "") : firstTruthy (some a :: rest) = some a := by
  simp [firstTruthy, h]

/-- C6 (amended): the category is derived from the first truthy tag in the
fixed priority order amenity → tourism → leisure → railway through the fixed
table {school, hospital, park, station, Autre}; when all four tags are
absent/empty the category is `"Autre"`; a non-empty raw value outside the
table yields `None` (no category), never `"Autre"` and never an error. -/
theorem c6_poi_category_corrected (t : Tags) (a b c d : String) :
    (t.amenity = some a → a ≠ "" → poiCategory t = translations a) ∧
    ((t.amenity = none ∨ t.amenity = some "") → t.tourism = some b → b ≠ "" →
      poiCategory t = translations b) ∧
    ((t.amenity = none ∨ t.amenity = some "") →
      (t.tourism = none ∨ t.tourism = some "") → t.leisure = some c → c ≠ "" →
      poiCategory t = translations c) ∧
    ((t.amenity = none ∨ t.amenity = some "") →
      (t.tourism = none ∨ t.tourism = some "") →
      (t.leisure = none ∨ t.leisure = some "") → t.railway = some d → d ≠ "" →
      poiCategory t = translations d) ∧
    ((t.amenity = none ∨ t.amenity = some "") →
      (t.tourism = none ∨ t.tourism = some "") →
      (t.leisure = none ∨ t.leisure = some "") →
      (t.railway = none ∨ t.railway = some "") →
      poiCategory t = some "Autre") ∧
    (∀ s : String, s ≠ "school" → s ≠ "hospital" → s ≠ "park" → s ≠ "station" →
      s ≠ "Autre" → translations s = none) ∧
    translations "school" = some "école" ∧
    translations "hospital" = some "hôpitaux" ∧
    translations "park" = some "parc" ∧
    translations "station" = some "gare" := by
  refine ⟨?_, ?_, ?_, ?_, ?_, ?_, rfl, rfl, rfl, rfl⟩
  · intro h1 hne
    unfold poiCategory
    rw [h1, firstTruthy_truthy a _ hne]
    rfl
  · intro h1 h2 hne
    unfold poiCategory
    rw [firstTruthy_falsy _ _ h1, h2, firstTruthy_truthy b _ hne]
    rfl
  · intro h1 h2 h3 hne
    unfold poiCategory
    rw [firstTruthy_falsy _ _ h1, firstTruthy_falsy _ _ h2, h3,
      firstTruthy_truthy c _ hne]
    rfl
  · intro h1 h2 h3 h4 hne
    unfold poiCategory
    rw [firstTruthy_falsy _ _ h1, firstTruthy_falsy _ _ h2,
      firstTruthy_falsy _ _ h3, h4, firstTruthy_truthy d _ hne]
    rfl
  · intro h1 h2 h3 h4
    unfold poiCategory
    rw [firstTruthy_falsy _ _ h1, firstTruthy_falsy _ _ h2,
      firstTruthy_falsy _ _ h3, firstTruthy_falsy _ _ h4]
    rfl
  · intro s h1 h2 h3 h4 h5
    unfold translations
    rw [if_neg h1, if_neg h2, if_neg h3, if_neg h4, if_neg h5]

/-- C6 witness: the amended theorem applied to the museum-only node of the
counterexample: the category is the `None` the translation table yields for
`"museum"`. -/
theorem c6_poi_category_witness :
    poiCategory museumTags = translations "museum" ∧
    translations "museum" = none := by
  have h := c6_poi_category_corrected museumTags "x" "museum" "x" "x"
  exact ⟨h.2.1 (Or.inl rfl) rfl (by decide),
    h.2.2.2.2.2.1 "museum" (by decide) (by decide) (by decide) (by decide) (by decide)⟩

/-! ## Claim C7 — geo-service failure handling (corrected)

The claim says a network/service error of the administrative-geography call
surfaces as NotFound.  Line 105 `requests.get(geo_url).json()` has no
`try`/`except`: the exception escapes `get_ville_data`.  NotFound (`None`)
is returned only for an empty candidate list or no qualifying candidate. -/

/-- C7 counterexample: with the geo HTTP call raising, `get_ville_data`
propagates the exception instead of returning the claimed NotFound. -/
theorem c7_geo_failure_counterexample :
    get_ville_data "Lyon" (Except.error ()) (Except.error ()) (Except.error ()) [] =
      Except.error () ∧
    (Except.error () : Except Unit (Option VilleData × List LRow)) ≠
      Except.ok (none, []) :=
  ⟨rfl, fun h => Except.noConfusion h⟩

/-- C7 (amended): a raising geo call propagates its exception out of
`get_ville_data`; NotFound (`None`) is returned exactly for a successful geo
response with an empty candidate list or no qualifying candidate. -/
theorem c7_geo_failure_corrected (ville : String) (meteo : Except Unit MeteoData)
    (pois : Except Unit OverpassResponse) (table : List LRow) (e : Unit)
    (response : List Commune)
    (hnone : resolveCommune ville response = none) :
    get_ville_data ville (Except.error e) meteo pois table = Except.error e ∧
    get_ville_data ville (Except.ok []) meteo pois table = Except.ok (none, table) ∧
    get_ville_data ville (Except.ok response) meteo pois table =
      Except.ok (none, table) :=
  ⟨rfl, rfl, resolve_none_ok ville response meteo pois table hnone⟩

/-- C7 witness: the amended theorem at a concrete below-threshold response. -/
theorem c7_geo_failure_witness :
    get_ville_data "Lyon" (Except.error ()) (Except.error ()) (Except.error ()) [] =
      Except.error () ∧
    get_ville_data "Lyon" (Except.ok []) (Except.error ()) (Except.error ()) [] =
      Except.ok (none, []) ∧
    get_ville_data "Lyon" (Except.ok
        [{ nom := "Lyon", code := "69123", population := some 100,
           surface := JsonOpt.null, centre := ⟨5, 46⟩ }])
      (Except.error ()) (Except.error ()) [] = Except.ok (none, []) :=
  c7_geo_failure_corrected "Lyon" (Except.error ()) (Except.error ()) [] ()
    [{ nom := "Lyon", code := "69123", population := some 100,
       surface := JsonOpt.null, centre := ⟨5, 46⟩ }] rfl

/-! ## Claim C2 — resolution rule (confirmed) -/

theorem head?_mem {α : Type} {l : List α} {a : α} (h : l.head? = some a) : a ∈ l := by
  match l with
  | [] => exact absurd h (by simp)
  | x :: xs =>
    have hx : some x = some a := h
    injection hx with hx
    subst hx
    exact List.mem_cons_self x xs

/-- C2: the resolution step of `get_ville_data` returns the first candidate
whose name matches case-insensitively and whose population is ≥ 20000; when
no candidate satisfies both (in particular when every population is below
20000), it yields NotFound and `get_ville_data` returns `None`; it never
selects merely the first result. -/
theorem c2_resolution_rule (ville : String) (response : List Commune) :
    (resolveCommune ville response = none ↔
      ∀ c ∈ response, ¬(pyLower c.nom = pyLower ville ∧ 20000 ≤ c.population.getD 0)) ∧
    (∀ c, resolveCommune ville response = some c →
      (pyLower c.nom = pyLower ville ∧ 20000 ≤ c.population.getD 0) ∧
      ∃ pre post, response = pre ++ c :: post ∧
        ∀ b ∈ pre, ¬(pyLower b.nom = pyLower ville ∧ 20000 ≤ b.population.getD 0)) ∧
    (∀ meteo pois table, resolveCommune ville response = none →
      get_ville_data ville (Except.ok response) meteo pois table =
        Except.ok (none, table)) := by
  refine ⟨?_, ?_, fun meteo pois table h => resolve_none_ok ville response meteo pois table h⟩
  · unfold resolveCommune
    by_cases hne : response = []
    · subst hne
      simp
    · rw [if_neg hne, List.find?_eq_none]
      constructor
      · intro h c hc hq
        exact (h c hc) ((qualifies_iff ville c).mpr hq)
      · intro h c hc hq
        exact (h c hc) ((qualifies_iff ville c).mp hq)
  · intro c hc
    obtain ⟨hne, hfind⟩ := resolveCommune_some hc
    obtain ⟨hq, pre, post, heq, hpre⟩ := find?_first hfind
    refine ⟨(qualifies_iff ville c).mp hq, pre, post, heq, ?_⟩
    intro b hb hprop
    have h1 := (qualifies_iff ville b).mpr hprop
    rw [hpre b hb] at h1
    exact Bool.false_ne_true h1

/-- A homonym below the population threshold, listed first by the service. -/
def c2SmallLyon : Commune :=
  { nom := "Lyon", code := "69000", population := some 100, surface := JsonOpt.null,
    centre := ⟨0, 0⟩ }

/-- The qualifying homonym, listed second. -/
def c2BigLyon : Commune :=
  { nom := "LYON", code := "69123", population := some 516092, surface := JsonOpt.null,
    centre := ⟨5, 46⟩ }

/-- C2 witness: with a below-threshold homonym first in the list, the second
candidate is selected — not merely the first result. -/
theorem c2_resolution_rule_witness :
    (pyLower c2BigLyon.nom = pyLower "lyon" ∧ 20000 ≤ c2BigLyon.population.getD 0) ∧
    ∃ pre post, [c2SmallLyon, c2BigLyon] = pre ++ c2BigLyon :: post ∧
      ∀ b ∈ pre, ¬(pyLower b.nom = pyLower "lyon" ∧ 20000 ≤ b.population.getD 0) :=
  (c2_resolution_rule "lyon" [c2SmallLyon, c2BigLyon]).2.1 c2BigLyon rfl

/-! ## Claim C3 — INSEE-code normalization (confirmed) -/

/-- C3: normalization coerces the INSEE value to an integer (dropping the
decimal noise, e.g. a trailing `".0"`) and zero-pads to 5 characters; a
float-like string form normalizes to the same result as the clean integer
form; and the row selected by the housing join carries the normalized code
equal to the city code (the join compares post-normalization cells only). -/
theorem c3_insee_normalization (s : String) (n : Nat) (table : List LRow)
    (code : String) (r : LRow) (t2 : List LRow)
    (hne : s.data ≠ []) (hd : isDigitList s.data = true)
    (hp : pyFloatInt s = some n) (hlt : n < 100000)
    (hjoin : computeLogement table code = Except.ok (some r, t2)) :
    normInsee (s ++ ".0") = normInsee s ∧
    (∃ t, normInsee s = some t ∧ t.length = 5) ∧
    r.insee = some code := by
  refine ⟨normInsee_dot_zero s hne hd, ?_, ?_⟩
  · refine ⟨zfill 5 (natToStr n), ?_, ?_⟩
    · unfold normInsee
      rw [hp]
      rfl
    · rw [zfill_length]
      have := natToStr_length_le n hlt
      omega
  · by_cases hnet : table = []
    · simp only [computeLogement, if_pos hnet] at hjoin
      injection hjoin with h2
      have h3 := congrArg Prod.fst h2
      simp at h3
    · match hnorm : normTable table with
      | Except.error e =>
        simp only [computeLogement, if_neg hnet, hnorm] at hjoin
        exact Except.noConfusion hjoin
      | Except.ok t =>
        simp only [computeLogement, if_neg hnet, hnorm] at hjoin
        by_cases hm : (t.filter fun x => x.insee == some code) = []
        · rw [if_pos hm] at hjoin
          injection hjoin with h2
          have h3 := congrArg Prod.fst h2
          simp at h3
        · rw [if_neg hm] at hjoin
          injection hjoin with h2
          have hh := congrArg Prod.fst h2
          have hmem := head?_mem hh
          have hmem2 := (List.mem_filter.mp hmem).1
          have hbeq := (List.mem_filter.mp hmem2).2
          exact beq_iff_eq.mp hbeq

/-- C3 witness: the theorem at `"75056"`/`"75056.0"` and a one-row table. -/
theorem c3_insee_normalization_witness :
    normInsee ("75056" ++ ".0") = normInsee "75056" ∧
    (∃ t, normInsee "75056" = some t ∧ t.length = 5) ∧
    (⟨some "75056", 2021, []⟩ : LRow).insee = some "75056" :=
  c3_insee_normalization "75056" 75056
    [⟨some "75056.0", 2021, []⟩] "75056"
    ⟨some "75056", 2021, []⟩ [⟨some "75056", 2021, []⟩]
    (by decide) (by decide) rfl (by decide) rfl

/-! ## Claim C4 — most-recent housing year (confirmed) -/

/-- C4: on a non-empty housing table, the housing sub-record selected for a
city code is exactly the (unique) row whose `ANNEE` is the maximum over rows
matching that normalized code; with no matching row the sub-record is the
empty record; `maxAnnee` really is the maximum of the years present; and the
record assembled by `get_ville_data` carries precisely that row. -/
theorem c4_housing_max_year (table : List LRow) (code : String) (t : List LRow)
    (hne : table ≠ []) (hnorm : normTable table = Except.ok t) :
    ((t.filter fun r => r.insee == some code) = [] →
      computeLogement table code = Except.ok (none, t)) ∧
    (∀ r ∈ t.filter fun x => x.insee == some code,
      r.annee = maxAnnee (t.filter fun x => x.insee == some code) →
      (∀ x ∈ t.filter fun y => y.insee == some code,
        x.annee = maxAnnee (t.filter fun y => y.insee == some code) → x = r) →
      computeLogement table code = Except.ok (some r, t)) ∧
    (∀ x ∈ t.filter fun r => r.insee == some code,
      x.annee ≤ maxAnnee (t.filter fun r => r.insee == some code)) ∧
    ((t.filter fun r => r.insee == some code) ≠ [] →
      ∃ x ∈ t.filter fun r => r.insee == some code,
        x.annee = maxAnnee (t.filter fun r => r.insee == some code)) ∧
    (∀ r ∈ t.filter fun x => x.insee == some code,
      r.annee = maxAnnee (t.filter fun x => x.insee == some code) →
      (∀ x ∈ t.filter fun y => y.insee == some code,
        x.annee = maxAnnee (t.filter fun y => y.insee == some code) → x = r) →
      ∀ ville response c meteo pois plist surf,
        resolveCommune ville response = some c → c.code = code →
        surfaceItem c.surface = Except.ok surf →
        get_pois_from_overpass pois = Except.ok plist →
        ∃ rec, get_ville_data ville (Except.ok response) meteo pois table =
          Except.ok (some rec, t) ∧ rec.logement = some r) := by
  have hpart2 : ∀ r ∈ t.filter fun x => x.insee == some code,
      r.annee = maxAnnee (t.filter fun x => x.insee == some code) →
      (∀ x ∈ t.filter fun y => y.insee == some code,
        x.annee = maxAnnee (t.filter fun y => y.insee == some code) → x = r) →
      computeLogement table code = Except.ok (some r, t) := by
    intro r hr hmax huniq
    have hm : (t.filter fun x => x.insee == some code) ≠ [] :=
      List.ne_nil_of_mem hr
    simp only [computeLogement, if_neg hne, hnorm, if_neg hm]
    have hhead := @filter_head_unique LRow
      (fun x => x.annee == maxAnnee (t.filter fun x => x.insee == some code))
      (t.filter fun x => x.insee == some code) r hr (beq_iff_eq.mpr hmax)
      (fun x hx hpx => huniq x hx (beq_iff_eq.mp hpx))
    rw [hhead]
  refine ⟨?_, hpart2, fun x hx => maxAnnee_le x hx, fun hm => maxAnnee_mem hm, ?_⟩
  · intro hm
    simp only [computeLogement, if_neg hne, hnorm, if_pos hm]
  · intro r hr hmax huniq ville response c meteo pois plist surf hres hcode hsurf hpois
    obtain ⟨-, hfind⟩ := resolveCommune_some hres
    obtain ⟨hq, -, -, -, -⟩ := find?_first hfind
    obtain ⟨p, hp, -⟩ := qualifies_population hq
    have hlog : computeLogement table c.code = Except.ok (some r, t) := by
      rw [hcode]
      exact hpart2 r hr hmax huniq
    exact ⟨_, get_ville_data_ok ville response c meteo pois table plist
      (some r) t p surf hres hp hlog hsurf hpois, rfl⟩

/-- C4 witness: two vintages for the same code — the 2021 row is selected
over the 2014 one, on the normalized table. -/
theorem c4_housing_max_year_witness :
    computeLogement
      [⟨some "75056.0", 2014, []⟩, ⟨some "75056.0", 2021, []⟩] "75056" =
      Except.ok (some ⟨some "75056", 2021, []⟩,
        [⟨some "75056", 2014, []⟩, ⟨some "75056", 2021, []⟩]) :=
  (c4_housing_max_year
      [⟨some "75056.0", 2014, []⟩, ⟨some "75056.0", 2021, []⟩] "75056"
      [⟨some "75056", 2014, []⟩, ⟨some "75056", 2021, []⟩]
      (by decide) rfl).2.1
    ⟨some "75056", 2021, []⟩ (by decide) (by decide) (by decide)

/-! ## Claim C5 — weather degrade-not-crash (confirmed) -/

/-- C5: if the weather HTTP call raises while the city resolves (and the
remaining steps behave), `get_ville_data` still returns a full non-NotFound
record whose current temperature is the `"N/A"` sentinel (`TempVal.na`),
whose status is `"Météo non disponible"` and whose forecast is the empty
sequence — the weather failure never escapes the aggregation. -/
theorem c5_weather_unavailable (ville : String) (response : List Commune)
    (c : Commune) (pois : Except Unit OverpassResponse) (table : List LRow)
    (plist : List Poi) (linfo : Option LRow) (t2 : List LRow) (surf : Option ℚ)
    (hres : resolveCommune ville response = some c)
    (hpois : get_pois_from_overpass pois = Except.ok plist)
    (hsurf : surfaceItem c.surface = Except.ok surf)
    (hlog : computeLogement table c.code = Except.ok (linfo, t2)) :
    ∃ rec, get_ville_data ville (Except.ok response) (Except.error ()) pois table =
        Except.ok (some rec, t2) ∧
      rec.meteo.temp = TempVal.na ∧
      rec.meteo.statut = "Météo non disponible" ∧
      rec.meteo.previsions = [] := by
  obtain ⟨-, hfind⟩ := resolveCommune_some hres
  obtain ⟨hq, -, -, -, -⟩ := find?_first hfind
  obtain ⟨p, hp, -⟩ := qualifies_population hq
  exact ⟨_, get_ville_data_ok ville response c (Except.error ()) pois table plist
    linfo t2 p surf hres hp hlog hsurf hpois, rfl, rfl, rfl⟩

/-- The commune used by the C5 witness. -/
def c5Lyon : Commune :=
  { nom := "Lyon", code := "69123", population := some 516092, surface := JsonOpt.null,
    centre := ⟨5, 46⟩ }

/-- C5 witness: the theorem at a concrete resolving city with the weather
call raising. -/
theorem c5_weather_unavailable_witness :
    ∃ rec, get_ville_data "Lyon" (Except.ok [c5Lyon]) (Except.error ())
        (Except.ok { elements := none }) [] = Except.ok (some rec, []) ∧
      rec.meteo.temp = TempVal.na ∧
      rec.meteo.statut = "Météo non disponible" ∧
      rec.meteo.previsions = [] :=
  c5_weather_unavailable "Lyon" [c5Lyon] c5Lyon (Except.ok { elements := none })
    [] [] none [] none rfl rfl rfl rfl

/-! ## Claim C9 — forecast alignment (confirmed) -/

/-- C9: on a successful weather fetch whose daily arrays are parallel (equal
lengths, as the API contract states), the forecast built by `get_ville_data`
has the same length as the arrays, entry `i` combining the date, minimum
temperature, maximum temperature and precipitation at index `i`; and on a
raising fetch the forecast is the empty sequence. -/
theorem c9_forecast_alignment (ville : String) (response : List Commune)
    (c : Commune) (m : MeteoData) (pois : Except Unit OverpassResponse)
    (table : List LRow) (plist : List Poi) (linfo : Option LRow) (t2 : List LRow)
    (surf : Option ℚ)
    (hres : resolveCommune ville response = some c)
    (hpois : get_pois_from_overpass pois = Except.ok plist)
    (hsurf : surfaceItem c.surface = Except.ok surf)
    (hlog : computeLogement table c.code = Except.ok (linfo, t2))
    (hlen1 : m.daily.temperature_2m_min.length = m.daily.time.length)
    (hlen2 : m.daily.temperature_2m_max.length = m.daily.time.length)
    (hlen3 : m.daily.precipitation_sum.length = m.daily.time.length) :
    ∃ rec, get_ville_data ville (Except.ok response) (Except.ok m) pois table =
        Except.ok (some rec, t2) ∧
      rec.meteo.previsions.length = m.daily.time.length ∧
      (∀ (i : Nat) (d : String) (tmin tmax pr : ℚ),
        m.daily.time[i]? = some d →
        m.daily.temperature_2m_min[i]? = some tmin →
        m.daily.temperature_2m_max[i]? = some tmax →
        m.daily.precipitation_sum[i]? = some pr →
        rec.meteo.previsions[i]? = some ⟨d, tmin, tmax, pr⟩) ∧
      (∀ e : Unit, ∃ rec2,
        get_ville_data ville (Except.ok response) (Except.error e) pois table =
          Except.ok (some rec2, t2) ∧ rec2.meteo.previsions = []) := by
  obtain ⟨-, hfind⟩ := resolveCommune_some hres
  obtain ⟨hq, -, -, -, -⟩ := find?_first hfind
  obtain ⟨p, hp, -⟩ := qualifies_population hq
  refine ⟨_, get_ville_data_ok ville response c (Except.ok m) pois table plist
    linfo t2 p surf hres hp hlog hsurf hpois, ?_, ?_, ?_⟩
  · show (buildForecast m.daily).length = m.daily.time.length
    unfold buildForecast
    rw [List.length_map]
    exact zip4_length_eq _ _ _ _ hlen1 hlen2 hlen3
  · intro i d tmin tmax pr h1 h2 h3 h4
    show (buildForecast m.daily)[i]? = _
    unfold buildForecast
    rw [List.getElem?_map, zip4_elem i _ _ _ _ d tmin tmax pr h1 h2 h3 h4]
    rfl
  · intro e
    exact ⟨_, get_ville_data_ok ville response c (Except.error e) pois table plist
      linfo t2 p surf hres hp hlog hsurf hpois, rfl⟩

/-- The commune used by the C9 witness. -/
def c9Lyon : Commune :=
  { nom := "Lyon", code := "69123", population := some 516092, surface := JsonOpt.null,
    centre := ⟨5, 46⟩ }

/-- The one-day weather payload used by the C9 witness. -/
def c9Meteo : MeteoData :=
  { current_weather := { temperature := 12, windspeed := 20 },
    daily := { time := ["2025-01-01"], temperature_2m_min := [1],
               temperature_2m_max := [7], precipitation_sum := [0] } }

/-- C9 witness: the theorem at a one-day forecast. -/
theorem c9_forecast_alignment_witness :
    ∃ rec, get_ville_data "Lyon" (Except.ok [c9Lyon]) (Except.ok c9Meteo)
        (Except.ok { elements := none }) [] = Except.ok (some rec, []) ∧
      rec.meteo.previsions.length = c9Meteo.daily.time.length ∧
      (∀ (i : Nat) (d : String) (tmin tmax pr : ℚ),
        c9Meteo.daily.time[i]? = some d →
        c9Meteo.daily.temperature_2m_min[i]? = some tmin →
        c9Meteo.daily.temperature_2m_max[i]? = some tmax →
        c9Meteo.daily.precipitation_sum[i]? = some pr →
        rec.meteo.previsions[i]? = some ⟨d, tmin, tmax, pr⟩) ∧
      (∀ e : Unit, ∃ rec2,
        get_ville_data "Lyon" (Except.ok [c9Lyon]) (Except.error e)
          (Except.ok { elements := none }) [] = Except.ok (some rec2, []) ∧
        rec2.meteo.previsions = []) :=
  c9_forecast_alignment "Lyon" [c9Lyon] c9Lyon c9Meteo
    (Except.ok { elements := none }) [] [] none [] none
    rfl rfl rfl rfl rfl rfl rfl

/-! ## Claim C10 — density rule (corrected)

Line 115 computes the density with `commune.get('surface')` truthiness, but
the record assembly at line 159 reads `commune['surface']` with bracket
access: when the surface key is absent from the response, `get_ville_data`
raises `KeyError` instead of returning a record carrying the sentinel.  The
sentinel reaches a returned record only when the key is present with `null`
or `0`. -/

/-- A commune that resolves but whose response object lacks the surface key. -/
def c10AbsentLyon : Commune :=
  { nom := "Lyon", code := "69123", population := some 516092,
    surface := JsonOpt.absent, centre := ⟨5, 46⟩ }

/-- C10 counterexample: for a resolved commune with the surface key absent,
`commune['surface']` at line 159 raises `KeyError`: `get_ville_data` returns
no record at all, so the density is not the claimed sentinel. -/
theorem c10_density_counterexample :
    get_ville_data "Lyon" (Except.ok [c10AbsentLyon]) (Except.error ())
      (Except.ok { elements := none }) [] = Except.error () ∧
    (get_ville_data "Lyon" (Except.ok [c10AbsentLyon]) (Except.error ())
      (Except.ok { elements := none }) []).toOption = none :=
  ⟨rfl, rfl⟩

/-- C10 (amended): for a resolved commune the density field equals
population / surface (the field as received), rounded to 2 decimals, when
the surface value is a number > 0; when the surface key is present with
`null` or with 0, the record is returned with the
`"Données indisponibles"` sentinel — never a value computed from a null or
zero denominator; but when the surface key is **absent**, the record
assembly of line 159 raises `KeyError` out of `get_ville_data`, so no
record (and no sentinel) is produced. -/
theorem c10_density_rule (ville : String) (response : List Commune) (c : Commune)
    (meteo : Except Unit MeteoData) (pois : Except Unit OverpassResponse)
    (table : List LRow) (plist : List Poi) (linfo : Option LRow) (t2 : List LRow)
    (hres : resolveCommune ville response = some c)
    (hpois : get_pois_from_overpass pois = Except.ok plist)
    (hlog : computeLogement table c.code = Except.ok (linfo, t2)) :
    (∀ s : ℚ, c.surface = JsonOpt.val s → 0 < s →
      ∃ rec, get_ville_data ville (Except.ok response) meteo pois table =
          Except.ok (some rec, t2) ∧
        rec.densite_hab_km2 =
          Dens.val (round2 ((c.population.getD 0 : ℚ) / s)) ∧
        rec.superficie_km2 = some s) ∧
    ((c.surface = JsonOpt.null ∨ c.surface = JsonOpt.val 0) →
      ∃ rec, get_ville_data ville (Except.ok response) meteo pois table =
          Except.ok (some rec, t2) ∧
        rec.densite_hab_km2 = Dens.indisponible) ∧
    (c.surface = JsonOpt.absent →
      get_ville_data ville (Except.ok response) meteo pois table =
        Except.error ()) := by
  obtain ⟨-, hfind⟩ := resolveCommune_some hres
  obtain ⟨hq, -, -, -, -⟩ := find?_first hfind
  obtain ⟨p, hp, -⟩ := qualifies_population hq
  refine ⟨?_, ?_, ?_⟩
  · intro s hs hpos
    have hsurf : surfaceItem c.surface = Except.ok (some s) := by rw [hs]; rfl
    refine ⟨_, get_ville_data_ok ville response c meteo pois table plist linfo t2
      p (some s) hres hp hlog hsurf hpois, ?_, rfl⟩
    show densiteOf p c.surface = _
    rw [hs, hp]
    simp only [densiteOf, if_neg (ne_of_lt hpos).symm]
    rfl
  · intro hcase
    rcases hcase with h | h
    · have hsurf : surfaceItem c.surface = Except.ok none := by rw [h]; rfl
      refine ⟨_, get_ville_data_ok ville response c meteo pois table plist linfo t2
        p none hres hp hlog hsurf hpois, ?_⟩
      show densiteOf p c.surface = _
      rw [h]
      rfl
    · have hsurf : surfaceItem c.surface = Except.ok (some 0) := by rw [h]; rfl
      refine ⟨_, get_ville_data_ok ville response c meteo pois table plist linfo t2
        p (some 0) hres hp hlog hsurf hpois, ?_⟩
      show densiteOf p c.surface = _
      rw [h]
      simp [densiteOf]
  · intro habs
    exact get_ville_data_surface_raise ville response c meteo pois table linfo t2
      p hres hp hlog habs

/-- The commune used by the C10 witness: surface value 2, population 40000. -/
def c10Lyon : Commune :=
  { nom := "Lyon", code := "69123", population := some 40000,
    surface := JsonOpt.val 2, centre := ⟨5, 46⟩ }

/-- A homonym whose surface key is present with `null`. -/
def c10NullLyon : Commune :=
  { nom := "Lyon", code := "69123", population := some 40000,
    surface := JsonOpt.null, centre := ⟨5, 46⟩ }

/-- C10 witness: the amended theorem at surface value 2 (computed density)
and at a null surface (record returned with the sentinel). -/
theorem c10_density_rule_witness :
    (∃ rec, get_ville_data "Lyon" (Except.ok [c10Lyon]) (Except.error ())
        (Except.ok { elements := none }) [] = Except.ok (some rec, []) ∧
      rec.densite_hab_km2 =
        Dens.val (round2 ((c10Lyon.population.getD 0 : ℚ) / 2)) ∧
      rec.superficie_km2 = some 2) ∧
    (∃ rec, get_ville_data "Lyon" (Except.ok [c10NullLyon]) (Except.error ())
        (Except.ok { elements := none }) [] = Except.ok (some rec, []) ∧
      rec.densite_hab_km2 = Dens.indisponible) :=
  ⟨(c10_density_rule "Lyon" [c10Lyon] c10Lyon (Except.error ())
      (Except.ok { elements := none }) [] [] none [] rfl rfl rfl).1 2 rfl
      (by norm_num),
    (c10_density_rule "Lyon" [c10NullLyon] c10NullLyon (Except.error ())
      (Except.ok { elements := none }) [] [] none [] rfl rfl rfl).2.1
      (Or.inl rfl)⟩

/-! ## Claim C8 — housing table immutability (corrected)

Line 151 reassigns the shared `logement_data['INSEE_COM']` column inside
`get_ville_data`: the table IS mutated by the first call on raw cells.  The
rewrite is idempotent, so later calls leave the table unchanged. -/

/-- The commune used by the C8 counterexample. -/
def c8Lyon : Commune :=
  { nom := "Lyon", code := "69123", population := some 516092, surface := JsonOpt.null,
    centre := ⟨5, 46⟩ }

/-- C8 counterexample: one successful `get_ville_data` call rewrites the
shared table's `INSEE_COM` cell from `"69123.0"` to `"69123"` — the call
does not leave the shared table field-for-field unchanged. -/
theorem c8_table_mutation_counterexample :
    get_ville_data "Lyon" (Except.ok [c8Lyon]) (Except.error ())
      (Except.ok { elements := none }) [⟨some "69123.0", 2020, []⟩] =
      Except.ok (some
        { nom := "Lyon", population := 516092, superficie_km2 := none,
          densite_hab_km2 := Dens.indisponible, latitude := 46, longitude := 5,
          meteo := ⟨TempVal.na, "Météo non disponible", []⟩,
          logement := some ⟨some "69123", 2020, []⟩, pois := [] },
        [⟨some "69123", 2020, []⟩]) ∧
    some ("69123" : String) ≠ some "69123.0" :=
  ⟨rfl, by decide⟩

/-- C8 (amended): `get_ville_data` does mutate the shared housing table — it
reassigns the normalized `INSEE_COM` column on every invocation on a
non-empty table — but the rewrite is idempotent: normalizing an
already-normalized table is the identity, and any further call reads and
returns that same table, so all calls after the first observe the identical
table. -/
theorem c8_table_mutation_corrected (t t2 : List LRow)
    (h : normTable t = Except.ok t2) :
    normTable t2 = Except.ok t2 ∧
    (∀ code x t3, computeLogement t2 code = Except.ok (x, t3) → t3 = t2) :=
  ⟨normTable_idem h, computeLogement_stable (normTable_idem h)⟩

/-- C8 witness: the amended theorem at the concrete table of the
counterexample. -/
theorem c8_table_mutation_witness :
    normTable [⟨some "69123", 2020, []⟩] = Except.ok [⟨some "69123", 2020, []⟩] ∧
    (∀ code x t3, computeLogement [⟨some "69123", 2020, []⟩] code =
      Except.ok (x, t3) → t3 = [⟨some "69123", 2020, []⟩]) :=
  c8_table_mutation_corrected [⟨some "69123.0", 2020, []⟩]
    [⟨some "69123", 2020, []⟩] rfl

end CityFighting
